import Mathlib

/-!
Verification of the core contract logic of the oramacore client library
(Rust sources: `manager.rs`, `client.rs`, `internal/utils.rs`,
`internal/embeddings.rs`).

The HTTP transport and the JSON text codec are external collaborators of the
core: they are modelled as explicit parameters (a `transport` function from
request to outcome, and encode/decode functions for bodies).  Every operation
additionally returns the list of HTTP requests it sent, so that "zero network
calls" and "exactly one POST" properties are statable.
-/

namespace Orama

/-- A JSON value, used to model the serde data model for the `FieldType`
wire encoding and for document payloads. -/
inductive Json where
  | null : Json
  | bool (b : Bool) : Json
  | num (n : Int) : Json
  | str (s : String) : Json
  | arr (xs : List Json) : Json
  | obj (fields : List (String × Json)) : Json

/-- First binding of `key` in an association list of JSON object fields,
modelling how serde reads a struct field out of a buffered map. -/
def lookupField (fields : List (String × Json)) (key : String) : Option Json :=
  match fields with
  | [] => none
  | (k, v) :: rest => if k = key then some v else lookupField rest key

/-- Rust `ScalarType` from manager.rs: `#[serde(rename_all = "lowercase")]`
enum with variants `String` and `Number`. -/
inductive ScalarType where
  | string : ScalarType
  | number : ScalarType
  deriving DecidableEq, Repr

/-- Rust `ComplexType` from manager.rs: lowercase-renamed enum with single
variant `Embedding`. -/
inductive ComplexType where
  | embedding : ComplexType
  deriving DecidableEq, Repr

/-- Rust `FieldType` from manager.rs: `#[serde(untagged)]` enum with struct
variants `Scalar { Scalar: ScalarType }` and `Complex { Complex: ComplexType }`. -/
inductive FieldType where
  | scalar (s : ScalarType) : FieldType
  | complex (c : ComplexType) : FieldType
  deriving DecidableEq, Repr

/-- Serde serialization of `ScalarType` (lowercase variant names). -/
def ScalarType.toJson : ScalarType → Json
  | .string => .str "string"
  | .number => .str "number"

/-- Serde deserialization of `ScalarType`. -/
def ScalarType.fromJson : Json → Option ScalarType
  | .str s =>
    if s = "string" then some .string
    else if s = "number" then some .number
    else none
  | _ => none

/-- Serde serialization of `ComplexType` (lowercase variant names). -/
def ComplexType.toJson : ComplexType → Json
  | .embedding => .str "embedding"

/-- Serde deserialization of `ComplexType`. -/
def ComplexType.fromJson : Json → Option ComplexType
  | .str s => if s = "embedding" then some .embedding else none
  | _ => none

/-- Serde serialization of the untagged `FieldType` enum: a struct variant
serializes as its struct body, i.e. a single-key object whose key is the
struct field name (`Scalar` resp. `Complex`). -/
def FieldType.toJson : FieldType → Json
  | .scalar s => .obj [("Scalar", s.toJson)]
  | .complex c => .obj [("Complex", c.toJson)]

/-- Attempt to deserialize the `Scalar { Scalar: ScalarType }` variant from a
JSON value: the value must be an object carrying a field named `Scalar` whose
value is a valid `ScalarType`; other fields are ignored (the serde default
struct behaviour, no `deny_unknown_fields`). -/
def decodeScalarVariant (j : Json) : Option FieldType :=
  match j with
  | .obj fields =>
    match lookupField fields "Scalar" with
    | some v => (ScalarType.fromJson v).map FieldType.scalar
    | none => none
  | _ => none

/-- Attempt to deserialize the `Complex { Complex: ComplexType }` variant. -/
def decodeComplexVariant (j : Json) : Option FieldType :=
  match j with
  | .obj fields =>
    match lookupField fields "Complex" with
    | some v => (ComplexType.fromJson v).map FieldType.complex
    | none => none
  | _ => none

/-- Serde deserialization of the untagged `FieldType` enum: try the variants
in declaration order, first `Scalar`, then `Complex`. -/
def FieldType.fromJson (j : Json) : Option FieldType :=
  match decodeScalarVariant j with
  | some ft => some ft
  | none => decodeComplexVariant j

/-- Modelled from the spec: the `Language` enumeration is declared in
`src/internal/nlp.rs`, a file of this repository not present under the
sources given; the spec (section 2) describes it as a closed set of language
identifiers, and the Manager source references the variants `English` and
`Italian`. -/
inductive Language where
  | english : Language
  | italian : Language
  deriving DecidableEq, Repr

/-- Rust `EmbeddingModel` from internal/embeddings.rs. -/
inductive EmbeddingModel where
  | e5MultilangualSmall : EmbeddingModel
  | e5MultilangualBase : EmbeddingModel
  | e5MultilangualLarge : EmbeddingModel
  | bgeSmall : EmbeddingModel
  | bgeBase : EmbeddingModel
  | bgeLarge : EmbeddingModel
  deriving DecidableEq, Repr

/-- Rust `EmbeddingsConfig` from manager.rs. -/
structure EmbeddingsConfig where
  model : Option EmbeddingModel
  document_fields : Option (List String)
  deriving DecidableEq, Repr

/-- Constant `RAND_API_KEY_LENGTH` from manager.rs. -/
def RAND_API_KEY_LENGTH : Nat := 32

/-- The 62 characters of the rand `Alphanumeric` distribution, in its sampling
order (uppercase, lowercase, digits). -/
def alphanumericChars : List Char :=
  "ABCDEFGHIJKLMNOPQRSTUVWXYZabcdefghijklmnopqrstuvwxyz0123456789".toList

/-- Character selected by one uniform draw of the `Alphanumeric` distribution
(the list has exactly 62 entries, so the default is never used). -/
def alphaChar (i : Fin 62) : Char :=
  alphanumericChars.getD i.val 'A'

/-- Function `gen_random_string` from internal/utils.rs: samples `len` characters from
the `Alphanumeric` distribution.  The random number generator is modelled as
an explicit stream of uniform draws `Nat → Fin 62` (position in the stream →
sampled index), the only thing the function consumes from `rand::rng()`. -/
def gen_random_string (len : Nat) (stream : Nat → Fin 62) : String :=
  String.mk ((List.range len).map (fun i => alphaChar (stream i)))

/-- Rust `NewCollectionParams` from manager.rs. -/
structure NewCollectionParams where
  id : String
  description : Option String
  write_api_key : String
  read_api_key : String
  language : Option Language
  embeddings : Option EmbeddingsConfig
  deriving DecidableEq, Repr

/-- The `Default` impl of `NewCollectionParams` from manager.rs: empty id, no
description, two fresh 32-character alphanumeric keys (the write key is
generated first, so it consumes stream positions 0..31 and the read key
positions 32..63), no embeddings config, language `Some(Language::English)`. -/
def NewCollectionParams.default (stream : Nat → Fin 62) : NewCollectionParams :=
  { id := ""
    description := none
    write_api_key := gen_random_string RAND_API_KEY_LENGTH (fun i => stream i)
    read_api_key := gen_random_string RAND_API_KEY_LENGTH (fun i => stream (RAND_API_KEY_LENGTH + i))
    language := some Language.english
    embeddings := none }

/-- Rust `NewCollectionResponse` from manager.rs. -/
structure NewCollectionResponse where
  id : String
  description : Option String
  write_api_key : String
  read_api_key : String
  deriving DecidableEq, Repr

/-- Rust `ExistingCollection` from manager.rs; the `HashMap<String, FieldType>` of
fields is modelled as an association list. -/
structure ExistingCollection where
  id : String
  description : Option String
  document_count : Nat
  fields : List (String × FieldType)
  deriving DecidableEq, Repr

/-- HTTP method of a request built by the core. -/
inductive HttpMethod where
  | get : HttpMethod
  | post : HttpMethod
  deriving DecidableEq, Repr

/-- An HTTP request as assembled by the core: method, full URL, headers in
the order they are set, and optional body text. -/
structure HttpRequest where
  method : HttpMethod
  url : String
  headers : List (String × String)
  body : Option String
  deriving DecidableEq, Repr

/-- Outcome of handing a request to the injected blocking transport:
either a delivered response (status code and body text) or a transport
failure (`send()` or `.text()` returned `Err`). -/
inductive TransportResult where
  | ok (status : Nat) (body : String) : TransportResult
  | fail : TransportResult
  deriving DecidableEq, Repr

/-- A transport capability: a function from request to outcome. -/
def Transport : Type := HttpRequest → TransportResult

/-- The error taxonomy of the spec (section 7), with the payloads the code
paths carry: validation and config errors carry the literal message string
from the source, an HTTP error carries status and body. -/
inductive OramaError where
  | validationError (msg : String) : OramaError
  | configError (msg : String) : OramaError
  | httpError (status : Nat) (body : String) : OramaError
  | transportError : OramaError
  | serializationError : OramaError
  deriving DecidableEq, Repr

/-- Result of a Manager operation: the returned value or error, together
with the list of HTTP requests the operation sent (in order). -/
structure ManagerCallResult (α : Type) where
  result : Except OramaError α
  requests : List HttpRequest

/-- Rust `OramaCoreManager` from manager.rs: base URL and master API key, both
immutable. -/
structure OramaCoreManager where
  url : String
  master_api_key : String
  deriving DecidableEq, Repr

/-- Constructor `OramaCoreManager::new` from manager.rs. -/
def OramaCoreManager.new (url : String) (master_api_key : String) : OramaCoreManager :=
  { url := url, master_api_key := master_api_key }

/-- Operation `OramaCoreManager::create_collection` from manager.rs.  The JSON encoding
of the params (serde, infallible for this type, hence the `.unwrap()` in the
source) is the external parameter `encodeParams`.  Faithful to the source:
after validation the response of `send()` is discarded with `let _ =`, so
only a transport failure is propagated — the HTTP status is never inspected —
and the returned value is rebuilt from the request parameters. -/
def OramaCoreManager.create_collection (m : OramaCoreManager)
    (transport : Transport) (encodeParams : NewCollectionParams → String)
    (collection_config : NewCollectionParams) :
    ManagerCallResult NewCollectionResponse :=
  if collection_config.id.isEmpty then
    { result := .error (.validationError "Please provide a collection ID")
      requests := [] }
  else
    let req : HttpRequest :=
      { method := .post
        url := m.url ++ "/v1/collections/create"
        headers := [("Authorization", "Bearer " ++ m.master_api_key),
                    ("Content-Type", "application/json")]
        body := some (encodeParams collection_config) }
    match transport req with
    | .fail => { result := .error .transportError, requests := [req] }
    | .ok _ _ =>
      { result := .ok
          { id := collection_config.id
            description := collection_config.description
            read_api_key := collection_config.read_api_key
            write_api_key := collection_config.write_api_key }
        requests := [req] }

/-- Operation `OramaCoreManager::list_collections` from manager.rs.  The serde decoding
of the body into `Vec<ExistingCollection>` is the external parameter
`decodeList`; a decode failure is a serialization error.  The status code of
a delivered response is never inspected. -/
def OramaCoreManager.list_collections (m : OramaCoreManager)
    (transport : Transport)
    (decodeList : String → Option (List ExistingCollection)) :
    ManagerCallResult (List ExistingCollection) :=
  let req : HttpRequest :=
    { method := .get
      url := m.url ++ "/v1/collections"
      headers := [("Authorization", "Bearer " ++ m.master_api_key)]
      body := none }
  match transport req with
  | .fail => { result := .error .transportError, requests := [req] }
  | .ok _ body =>
    match decodeList body with
    | none => { result := .error .serializationError, requests := [req] }
    | some cols => { result := .ok cols, requests := [req] }

/-- Operation `OramaCoreManager::get_collection` from manager.rs.  The serde decoding
of the body into `ExistingCollection` is the external parameter
`decodeExisting`; a decode failure is a serialization error.  The status code
of a delivered response is never inspected: the call fails on a non-success
response only because its body does not decode as an `ExistingCollection`. -/
def OramaCoreManager.get_collection (m : OramaCoreManager)
    (transport : Transport)
    (decodeExisting : String → Option ExistingCollection)
    (id : String) : ManagerCallResult ExistingCollection :=
  let req : HttpRequest :=
    { method := .get
      url := m.url ++ "/v1/collections/" ++ id
      headers := [("Authorization", "Bearer " ++ m.master_api_key)]
      body := none }
  match transport req with
  | .fail => { result := .error .transportError, requests := [req] }
  | .ok _ body =>
    match decodeExisting body with
    | none => { result := .error .serializationError, requests := [req] }
    | some col => { result := .ok col, requests := [req] }

/-- Modelled from the spec: `delete_collection` belongs to the second
administrative-facade variant of this repository, whose source is not among
the files given (the given `manager.rs` lacks it).  Per spec sections 4.1
and 6 it sends an authenticated POST to `{base}/v1/collections/{id}/delete`
with header `Authorization: Bearer <master_key>` and no body, performs no
local existence pre-check, returns success, and per section 7 surfaces a
non-success status as an HttpError. -/
def OramaCoreManager.delete_collection (m : OramaCoreManager)
    (transport : Transport) (id : String) : ManagerCallResult Unit :=
  let req : HttpRequest :=
    { method := .post
      url := m.url ++ "/v1/collections/" ++ id ++ "/delete"
      headers := [("Authorization", "Bearer " ++ m.master_api_key)]
      body := none }
  match transport req with
  | .fail => { result := .error .transportError, requests := [req] }
  | .ok status body =>
    if 200 ≤ status ∧ status < 300 then
      { result := .ok (), requests := [req] }
    else
      { result := .error (.httpError status body), requests := [req] }

/-- Alias `OramaDocument` from client.rs: `HashMap<String, Value>`, modelled as an
association list from field name to JSON value. -/
def OramaDocument : Type := List (String × Json)

/-- Rust `OramaCoreClient` from client.rs: URL, optional read/write keys, and the
mutable optional bound collection id. -/
structure OramaCoreClient where
  url : String
  read_api_key : Option String
  write_api_key : Option String
  collection : Option String

/-- Rust `OramaCoreClientParams` from client.rs. -/
structure OramaCoreClientParams where
  url : String
  read_api_key : Option String
  write_api_key : Option String

/-- Constructor `OramaCoreClient::new` from client.rs: copies the params and starts with
no collection bound. -/
def OramaCoreClient.new (params : OramaCoreClientParams) : OramaCoreClient :=
  { url := params.url
    read_api_key := params.read_api_key
    write_api_key := params.write_api_key
    collection := none }

/-- Operation `OramaCoreClient::set_collection` from client.rs: pure local mutation of
the bound collection id. -/
def OramaCoreClient.set_collection (c : OramaCoreClient) (collection_id : String) :
    OramaCoreClient :=
  { c with collection := some collection_id }

/-- The error message of the unbound-collection precondition in client.rs. -/
def noCollectionMsg : String :=
  "No collection specified. Make sure to call set_collection() first."

/-- The error message of the missing-write-key precondition in client.rs
(the same string literal is used by both `insert` and `delete`). -/
def noWriteKeyMsg : String :=
  "Cannot perform write operation (delete) as there is no write_api_key set."

/-- Result of a Client operation: outcome, requests sent, and the client
value after the call (the source takes `&mut self`; the resulting state is
returned explicitly here). -/
structure ClientCallResult where
  result : Except OramaError Unit
  requests : List HttpRequest
  client : OramaCoreClient

/-- Model of the reqwest method `Response::error_for_status`: errors exactly on client and
server error statuses, 400..599. -/
def errorForStatus (status : Nat) : Bool :=
  400 ≤ status && status < 600

/-- Operation `OramaCoreClient::insert` from client.rs.  Preconditions in source
order: bound collection, then configured write key; each failure returns
before any request is built.  The serde encoding of the documents is the
external parameter `encodeDocs` (infallible for string-keyed maps of JSON
values).  On a delivered response, `error_for_status()?` surfaces statuses
400..599 as an HTTP error.  The client state is never mutated. -/
def OramaCoreClient.insert (c : OramaCoreClient) (transport : Transport)
    (encodeDocs : List OramaDocument → String)
    (documents : List OramaDocument) : ClientCallResult :=
  match c.collection with
  | none =>
    { result := .error (.configError noCollectionMsg), requests := [], client := c }
  | some collection =>
    match c.write_api_key with
    | none =>
      { result := .error (.configError noWriteKeyMsg), requests := [], client := c }
    | some write_api_key =>
      let req : HttpRequest :=
        { method := .post
          url := c.url ++ "/collections/" ++ collection ++ "/insert"
          headers := [("Authorization", write_api_key),
                      ("Content-Type", "application/json")]
          body := some (encodeDocs documents) }
      match transport req with
      | .fail => { result := .error .transportError, requests := [req], client := c }
      | .ok status body =>
        if errorForStatus status then
          { result := .error (.httpError status body), requests := [req], client := c }
        else
          { result := .ok (), requests := [req], client := c }

/-- Operation `OramaCoreClient::delete` from client.rs.  Same preconditions and header
convention as `insert`, posting the encoded document-id list to the
delete endpoint of the collection. -/
def OramaCoreClient.delete (c : OramaCoreClient) (transport : Transport)
    (encodeIds : List String → String)
    (document_ids : List String) : ClientCallResult :=
  match c.collection with
  | none =>
    { result := .error (.configError noCollectionMsg), requests := [], client := c }
  | some collection =>
    match c.write_api_key with
    | none =>
      { result := .error (.configError noWriteKeyMsg), requests := [], client := c }
    | some write_api_key =>
      let req : HttpRequest :=
        { method := .post
          url := c.url ++ "/collections/" ++ collection ++ "/delete"
          headers := [("Authorization", write_api_key),
                      ("Content-Type", "application/json")]
          body := some (encodeIds document_ids) }
      match transport req with
      | .fail => { result := .error .transportError, requests := [req], client := c }
      | .ok status body =>
        if errorForStatus status then
          { result := .error (.httpError status body), requests := [req], client := c }
        else
          { result := .ok (), requests := [req], client := c }

/-- One public Client operation together with its arguments, for stating
properties over arbitrary call sequences. -/
inductive ClientOp where
  | setCollection (id : String) : ClientOp
  | insertDocs (transport : Transport)
      (encodeDocs : List OramaDocument → String)
      (documents : List OramaDocument) : ClientOp
  | deleteDocs (transport : Transport)
      (encodeIds : List String → String)
      (document_ids : List String) : ClientOp

/-- The client state reached by running one operation. -/
def ClientOp.apply (c : OramaCoreClient) : ClientOp → OramaCoreClient
  | .setCollection id => c.set_collection id
  | .insertDocs transport encodeDocs documents =>
    (c.insert transport encodeDocs documents).client
  | .deleteDocs transport encodeIds document_ids =>
    (c.delete transport encodeIds document_ids).client

/-- A sample `NewCollectionParams` value with a non-empty id, used by witness
theorems. -/
def sampleParams : NewCollectionParams :=
  { id := "c"
    description := none
    write_api_key := "w"
    read_api_key := "r"
    language := none
    embeddings := none }

/-- The `insert` operation never writes any field of the client. -/
theorem insert_client_eq (c : OramaCoreClient) (t : Transport)
    (encodeDocs : List OramaDocument → String) (docs : List OramaDocument) :
    (c.insert t encodeDocs docs).client = c := by
  unfold OramaCoreClient.insert
  dsimp only
  repeat' split
  all_goals rfl

/-- The `delete` operation never writes any field of the client. -/
theorem delete_client_eq (c : OramaCoreClient) (t : Transport)
    (encodeIds : List String → String) (ids : List String) :
    (c.delete t encodeIds ids).client = c := by
  unfold OramaCoreClient.delete
  dsimp only
  repeat' split
  all_goals rfl

/-- Claim C1, counterexample: with a transport that delivers an HTTP 500
response, `create_collection` on a non-empty id SUCCEEDS and returns the
echo of the request parameters — the non-success status is not surfaced as
an HttpError (the source discards the response with `let _ = ...send()?`). -/
theorem create_collection_succeeds_on_http_500 :
    ((OramaCoreManager.new "http://localhost:8080" "mk").create_collection
        (fun _ => TransportResult.ok 500 "Internal Server Error")
        (fun _ => "") sampleParams).result =
      Except.ok { id := "c", description := none,
                  write_api_key := "w", read_api_key := "r" } := by
  rfl

/-- Claim C1, amended: for a Manager call whose transport delivers a
response, the HTTP status is never inspected.  `create_collection` (non-empty
id) succeeds with the parameter echo whatever the status is, and fails with a
TransportError exactly when the transport fails; the outcome of `get_collection`
depends only on whether the body decodes as an `ExistingCollection` — on a
non-success response it fails with a SerializationError (undecodable error
body), not an HttpError. -/
theorem manager_nonsuccess_status_behaviour
    (m : OramaCoreManager) (s : Nat) (b : String)
    (encodeParams : NewCollectionParams → String)
    (decodeExisting : String → Option ExistingCollection)
    (cfg : NewCollectionParams) (id : String)
    (hid : cfg.id.isEmpty = false) :
    (m.create_collection (fun _ => .ok s b) encodeParams cfg).result =
      .ok { id := cfg.id, description := cfg.description,
            write_api_key := cfg.write_api_key, read_api_key := cfg.read_api_key } ∧
    (m.create_collection (fun _ => .fail) encodeParams cfg).result =
      .error .transportError ∧
    (m.get_collection (fun _ => .ok s b) decodeExisting id).result =
      (match decodeExisting b with
       | none => .error .serializationError
       | some col => .ok col) := by
  refine ⟨?_, ?_, ?_⟩
  · simp [OramaCoreManager.create_collection, hid]
  · simp [OramaCoreManager.create_collection, hid]
  · cases hdec : decodeExisting b <;>
      simp [OramaCoreManager.get_collection, hdec]

/-- Witness for the amended claim C1 at concrete inputs. -/
theorem manager_nonsuccess_status_behaviour_witness :
    sampleParams.id.isEmpty = false ∧
    ((OramaCoreManager.new "u" "k").create_collection
        (fun _ => TransportResult.ok 500 "nf") (fun _ => "") sampleParams).result =
      Except.ok { id := "c", description := none,
                  write_api_key := "w", read_api_key := "r" } ∧
    ((OramaCoreManager.new "u" "k").get_collection
        (fun _ => TransportResult.ok 500 "nf") (fun _ => none) "c").result =
      Except.error OramaError.serializationError :=
  ⟨by decide,
   (manager_nonsuccess_status_behaviour (OramaCoreManager.new "u" "k") 500 "nf"
      (fun _ => "") (fun _ => none) sampleParams "c" (by decide)).1,
   (manager_nonsuccess_status_behaviour (OramaCoreManager.new "u" "k") 500 "nf"
      (fun _ => "") (fun _ => none) sampleParams "c" (by decide)).2.2⟩

/-- Claim C2: whenever `create_collection` on params with a non-empty id
succeeds, and whatever transport was injected (so whatever body the HTTP
response carried), the returned response carries exactly the id,
description, read key and write key of the request parameters. -/
theorem create_collection_echoes_request_params
    (m : OramaCoreManager) (t : Transport)
    (encodeParams : NewCollectionParams → String)
    (cfg : NewCollectionParams) (resp : NewCollectionResponse)
    (hid : cfg.id.isEmpty = false)
    (h : (m.create_collection t encodeParams cfg).result = .ok resp) :
    resp.id = cfg.id ∧ resp.description = cfg.description ∧
    resp.read_api_key = cfg.read_api_key ∧ resp.write_api_key = cfg.write_api_key := by
  unfold OramaCoreManager.create_collection at h
  rw [hid] at h
  simp only [Bool.false_eq_true, if_false] at h
  split at h
  · simp at h
  · rw [Except.ok.injEq] at h
    subst h
    exact ⟨rfl, rfl, rfl, rfl⟩

/-- Witness for claim C2 at concrete inputs: the transport delivers an
unrelated body, the call succeeds, and the response fields are those of the
request parameters. -/
theorem create_collection_echoes_request_params_witness :
    sampleParams.id.isEmpty = false ∧
    (({ id := "c", description := none, write_api_key := "w", read_api_key := "r" } :
        NewCollectionResponse).id = sampleParams.id ∧
     ({ id := "c", description := none, write_api_key := "w", read_api_key := "r" } :
        NewCollectionResponse).description = sampleParams.description ∧
     ({ id := "c", description := none, write_api_key := "w", read_api_key := "r" } :
        NewCollectionResponse).read_api_key = sampleParams.read_api_key ∧
     ({ id := "c", description := none, write_api_key := "w", read_api_key := "r" } :
        NewCollectionResponse).write_api_key = sampleParams.write_api_key) :=
  ⟨by decide,
   create_collection_echoes_request_params (OramaCoreManager.new "u" "k")
     (fun _ => TransportResult.ok 200 "whatever body") (fun _ => "") sampleParams
     { id := "c", description := none, write_api_key := "w", read_api_key := "r" }
     (by decide) rfl⟩

/-- Claim C3: `create_collection` on params whose id is the empty string
(whatever the other fields are) fails with the ValidationError carrying the
message from the source, and its request trace is empty — nothing was sent. -/
theorem create_collection_empty_id_validation_error
    (m : OramaCoreManager) (t : Transport)
    (encodeParams : NewCollectionParams → String)
    (desc : Option String) (wk rk : String)
    (lang : Option Language) (emb : Option EmbeddingsConfig) :
    (m.create_collection t encodeParams
        { id := "", description := desc, write_api_key := wk,
          read_api_key := rk, language := lang, embeddings := emb }).result =
      .error (.validationError "Please provide a collection ID") ∧
    (m.create_collection t encodeParams
        { id := "", description := desc, write_api_key := wk,
          read_api_key := rk, language := lang, embeddings := emb }).requests = [] :=
  ⟨rfl, rfl⟩

/-- Claim C4: on a client with no bound collection (whatever the keys are)
`insert` and `delete` fail with the unbound-collection ConfigError and send
nothing; on a client with a bound collection but no write key they fail with
the missing-write-key ConfigError, also sending nothing; and the two errors
are distinct. -/
theorem insert_delete_precondition_checks
    (url : String) (rk wkOpt : Option String) (cid : String)
    (t : Transport) (encodeDocs : List OramaDocument → String)
    (docs : List OramaDocument)
    (encodeIds : List String → String) (ids : List String) :
    (({ url := url, read_api_key := rk, write_api_key := wkOpt, collection := none } :
        OramaCoreClient).insert t encodeDocs docs).result =
      .error (.configError noCollectionMsg) ∧
    (({ url := url, read_api_key := rk, write_api_key := wkOpt, collection := none } :
        OramaCoreClient).insert t encodeDocs docs).requests = [] ∧
    (({ url := url, read_api_key := rk, write_api_key := wkOpt, collection := none } :
        OramaCoreClient).delete t encodeIds ids).result =
      .error (.configError noCollectionMsg) ∧
    (({ url := url, read_api_key := rk, write_api_key := wkOpt, collection := none } :
        OramaCoreClient).delete t encodeIds ids).requests = [] ∧
    (({ url := url, read_api_key := rk, write_api_key := none, collection := some cid } :
        OramaCoreClient).insert t encodeDocs docs).result =
      .error (.configError noWriteKeyMsg) ∧
    (({ url := url, read_api_key := rk, write_api_key := none, collection := some cid } :
        OramaCoreClient).insert t encodeDocs docs).requests = [] ∧
    (({ url := url, read_api_key := rk, write_api_key := none, collection := some cid } :
        OramaCoreClient).delete t encodeIds ids).result =
      .error (.configError noWriteKeyMsg) ∧
    (({ url := url, read_api_key := rk, write_api_key := none, collection := some cid } :
        OramaCoreClient).delete t encodeIds ids).requests = [] ∧
    OramaError.configError noCollectionMsg ≠ OramaError.configError noWriteKeyMsg :=
  ⟨rfl, rfl, rfl, rfl, rfl, rfl, rfl, rfl, by decide⟩

/-- Claim C5: on a bound client with a configured write key, `insert` sends
exactly one POST, to `{base}/collections/{id}/insert`, whose Authorization
header is the raw write key; every Manager operation instead sends
`Authorization: Bearer <master_key>` on each of its requests. -/
theorem insert_raw_key_manager_bearer_key
    (url : String) (rk : Option String) (wk cid : String)
    (t : Transport) (encodeDocs : List OramaDocument → String)
    (docs : List OramaDocument)
    (m : OramaCoreManager) (tp : Transport)
    (encodeParams : NewCollectionParams → String)
    (decodeExisting : String → Option ExistingCollection)
    (decodeList : String → Option (List ExistingCollection))
    (cfg : NewCollectionParams) (gid did : String) :
    (({ url := url, read_api_key := rk, write_api_key := some wk, collection := some cid } :
        OramaCoreClient).insert t encodeDocs docs).requests =
      [{ method := .post
         url := url ++ "/collections/" ++ cid ++ "/insert"
         headers := [("Authorization", wk), ("Content-Type", "application/json")]
         body := some (encodeDocs docs) }] ∧
    (∀ r ∈ (m.create_collection tp encodeParams cfg).requests,
      ("Authorization", "Bearer " ++ m.master_api_key) ∈ r.headers) ∧
    (∀ r ∈ (m.list_collections tp decodeList).requests,
      ("Authorization", "Bearer " ++ m.master_api_key) ∈ r.headers) ∧
    (∀ r ∈ (m.get_collection tp decodeExisting gid).requests,
      ("Authorization", "Bearer " ++ m.master_api_key) ∈ r.headers) ∧
    (∀ r ∈ (m.delete_collection tp did).requests,
      ("Authorization", "Bearer " ++ m.master_api_key) ∈ r.headers) := by
  refine ⟨?_, ?_, ?_, ?_, ?_⟩
  · unfold OramaCoreClient.insert
    dsimp only
    repeat' split
    all_goals rfl
  · intro r hr
    unfold OramaCoreManager.create_collection at hr
    split at hr <;> dsimp only at hr
    · simp at hr
    · split at hr <;> simp at hr <;> simp [hr]
  · intro r hr
    unfold OramaCoreManager.list_collections at hr
    dsimp only at hr
    repeat' split at hr
    all_goals simp at hr
    all_goals simp [hr]
  · intro r hr
    unfold OramaCoreManager.get_collection at hr
    dsimp only at hr
    repeat' split at hr
    all_goals simp at hr
    all_goals simp [hr]
  · intro r hr
    unfold OramaCoreManager.delete_collection at hr
    dsimp only at hr
    repeat' split at hr
    all_goals simp at hr
    all_goals simp [hr]

/-- Witness for claim C5 at concrete inputs: one insert request with the raw
key, and the Bearer header on a concrete create_collection request. -/
theorem insert_raw_key_manager_bearer_key_witness :
    (({ url := "u", read_api_key := none, write_api_key := some "wkey",
        collection := some "docs-1" } :
        OramaCoreClient).insert (fun _ => TransportResult.ok 200 "")
          (fun _ => "body") []).requests =
      [{ method := .post
         url := "u/collections/docs-1/insert"
         headers := [("Authorization", "wkey"), ("Content-Type", "application/json")]
         body := some "body" }] ∧
    (("Authorization", "Bearer " ++ (OramaCoreManager.new "u" "mk").master_api_key) ∈
      ({ method := HttpMethod.post
         url := "u/v1/collections/create"
         headers := [("Authorization", "Bearer mk"), ("Content-Type", "application/json")]
         body := some "" } : HttpRequest).headers) :=
  ⟨(insert_raw_key_manager_bearer_key "u" none "wkey" "docs-1"
      (fun _ => TransportResult.ok 200 "") (fun _ => "body") []
      (OramaCoreManager.new "u" "mk") (fun _ => TransportResult.ok 200 "")
      (fun _ => "") (fun _ => none) (fun _ => none) sampleParams "g" "d").1,
   (insert_raw_key_manager_bearer_key "u" none "wkey" "docs-1"
      (fun _ => TransportResult.ok 200 "") (fun _ => "body") []
      (OramaCoreManager.new "u" "mk") (fun _ => TransportResult.ok 200 "")
      (fun _ => "") (fun _ => none) (fun _ => none) sampleParams "g" "d").2.1
     { method := HttpMethod.post
       url := "u/v1/collections/create"
       headers := [("Authorization", "Bearer mk"), ("Content-Type", "application/json")]
       body := some "" }
     (by decide)⟩

/-- Claim C8: `insert` and `delete` return the client exactly as it was —
whatever the outcome (precondition failure, transport failure, or HTTP
error status) — and `set_collection` changes nothing but the bound
collection id. -/
theorem client_state_never_mutated_except_set_collection
    (c : OramaCoreClient) (t1 t2 : Transport)
    (encodeDocs : List OramaDocument → String) (docs : List OramaDocument)
    (encodeIds : List String → String) (ids : List String) (cid : String) :
    (c.insert t1 encodeDocs docs).client = c ∧
    (c.delete t2 encodeIds ids).client = c ∧
    (c.set_collection cid).url = c.url ∧
    (c.set_collection cid).read_api_key = c.read_api_key ∧
    (c.set_collection cid).write_api_key = c.write_api_key ∧
    (c.set_collection cid).collection = some cid :=
  ⟨insert_client_eq c t1 encodeDocs docs, delete_client_eq c t2 encodeIds ids,
   rfl, rfl, rfl, rfl⟩

/-- Claim C9 (modelled from the spec, `delete_collection` source not among
the given files): `delete_collection` always sends exactly one POST to
`{base}/v1/collections/{id}/delete` with the Bearer-prefixed master key and
no body — no local existence pre-check, hence no other request — and
returns success exactly on a success status. -/
theorem delete_collection_contract
    (m : OramaCoreManager) (t : Transport) (id : String) (s : Nat) (b : String) :
    (m.delete_collection t id).requests =
      [{ method := .post
         url := m.url ++ "/v1/collections/" ++ id ++ "/delete"
         headers := [("Authorization", "Bearer " ++ m.master_api_key)]
         body := none }] ∧
    (m.delete_collection (fun _ => .ok s b) id).result =
      (if 200 ≤ s ∧ s < 300 then .ok () else .error (.httpError s b)) := by
  constructor
  · unfold OramaCoreManager.delete_collection
    dsimp only
    repeat' split
    all_goals rfl
  · unfold OramaCoreManager.delete_collection
    dsimp only
    split <;> rfl

/-- Running `ClientOp.apply` preserves a bound collection. -/
theorem apply_preserves_bound (c : OramaCoreClient) (op : ClientOp)
    (h : c.collection.isSome = true) :
    ((ClientOp.apply c op).collection).isSome = true := by
  cases op with
  | setCollection id =>
    simp [ClientOp.apply, OramaCoreClient.set_collection]
  | insertDocs t e d =>
    rw [ClientOp.apply, insert_client_eq]
    exact h
  | deleteDocs t e i =>
    rw [ClientOp.apply, delete_client_eq]
    exact h

/-- Claim C10: after a `set_collection`, every sequence of further client
operations — more `set_collection`s, `insert`s and `delete`s, succeeding or
failing — leaves the client with some collection bound; no operation can
return it to the unbound state. -/
theorem bound_collection_persists
    (c : OramaCoreClient) (id : String) (ops : List ClientOp) :
    ((ops.foldl ClientOp.apply (c.set_collection id)).collection).isSome = true := by
  suffices h : ∀ (l : List ClientOp) (s : OramaCoreClient),
      s.collection.isSome = true →
      ((l.foldl ClientOp.apply s).collection).isSome = true by
    exact h ops (c.set_collection id) (by simp [OramaCoreClient.set_collection])
  intro l
  induction l with
  | nil =>
    intro s hs
    simpa using hs
  | cons op rest ih =>
    intro s hs
    simpa [List.foldl] using ih (ClientOp.apply s op) (apply_preserves_bound s op hs)

/-- A JSON value deserializing to a `ScalarType` is exactly the serialization
of that type. -/
theorem scalarType_fromJson_inversion (v : Json) (s : ScalarType)
    (h : ScalarType.fromJson v = some s) : v = s.toJson := by
  rcases v with _ | b | n | txt | xs | fields
  · simp [ScalarType.fromJson] at h
  · simp [ScalarType.fromJson] at h
  · simp [ScalarType.fromJson] at h
  · simp only [ScalarType.fromJson] at h
    split_ifs at h with h1 h2
    · injection h with h3
      subst h3
      subst h1
      rfl
    · injection h with h3
      subst h3
      subst h2
      rfl
  · simp [ScalarType.fromJson] at h
  · simp [ScalarType.fromJson] at h

/-- A JSON value deserializing to a `ComplexType` is exactly the serialization
of that type. -/
theorem complexType_fromJson_inversion (v : Json) (c : ComplexType)
    (h : ComplexType.fromJson v = some c) : v = c.toJson := by
  rcases v with _ | b | n | txt | xs | fields
  · simp [ComplexType.fromJson] at h
  · simp [ComplexType.fromJson] at h
  · simp [ComplexType.fromJson] at h
  · simp only [ComplexType.fromJson] at h
    split_ifs at h with h1
    · injection h with h3
      subst h3
      subst h1
      rfl
  · simp [ComplexType.fromJson] at h
  · simp [ComplexType.fromJson] at h

/-- Evaluation of the untagged decoder on a single-field object. -/
theorem fieldType_fromJson_single (tag : String) (v : Json) :
    FieldType.fromJson (Json.obj [(tag, v)]) =
      (if tag = "Scalar" then (ScalarType.fromJson v).map FieldType.scalar
       else if tag = "Complex" then (ComplexType.fromJson v).map FieldType.complex
       else none) := by
  by_cases h1 : tag = "Scalar"
  · subst h1
    cases hv : ScalarType.fromJson v <;>
      simp [FieldType.fromJson, decodeScalarVariant, decodeComplexVariant, lookupField, hv]
  · by_cases h2 : tag = "Complex"
    · subst h2
      simp [FieldType.fromJson, decodeScalarVariant, decodeComplexVariant, lookupField, h1]
    · simp [FieldType.fromJson, decodeScalarVariant, decodeComplexVariant, lookupField, h1, h2]

/-- Claim C6, counterexample: the doubly-wrapped representation named by the
spec, an object whose `Scalar` field is itself the object with a `Scalar`
field, does NOT decode to any `FieldType` value — the untagged wire form is
the single-key object whose value is the bare kind string. -/
theorem fieldtype_double_wrapped_does_not_decode :
    FieldType.fromJson
        (Json.obj [("Scalar", Json.obj [("Scalar", Json.str "string")])]) = none := by
  decide

/-- Claim C6, amended: every `FieldType` value serializes to the single-key
wrapper object (key the variant tag, value the lowercase kind string) and
deserializes back to itself, and every single-key object that decodes at all
re-encodes to the identical representation; the doubly-wrapped form does not
decode. -/
theorem fieldtype_wire_round_trip :
    (∀ ft : FieldType, FieldType.fromJson (FieldType.toJson ft) = some ft) ∧
    (∀ (tag : String) (v : Json) (ft : FieldType),
      FieldType.fromJson (Json.obj [(tag, v)]) = some ft →
      FieldType.toJson ft = Json.obj [(tag, v)]) := by
  constructor
  · intro ft
    cases ft with
    | scalar s => cases s <;> rfl
    | complex c =>
      cases c
      rfl
  · intro tag v ft h
    rw [fieldType_fromJson_single] at h
    split_ifs at h with h1 h2
    · obtain ⟨s, hs, hft⟩ := Option.map_eq_some'.mp h
      subst h1
      subst hft
      rw [scalarType_fromJson_inversion v s hs]
      rfl
    · obtain ⟨c, hc, hft⟩ := Option.map_eq_some'.mp h
      subst h2
      subst hft
      rw [complexType_fromJson_inversion v c hc]
      rfl

/-- Witness for the amended claim C6 at concrete values: the canonical wire
forms of the Scalar/String and Complex/Embedding variants. -/
theorem fieldtype_wire_round_trip_witness :
    FieldType.fromJson (Json.obj [("Scalar", Json.str "string")]) =
      some (FieldType.scalar ScalarType.string) ∧
    FieldType.toJson (FieldType.scalar ScalarType.string) =
      Json.obj [("Scalar", Json.str "string")] ∧
    FieldType.fromJson (FieldType.toJson (FieldType.complex ComplexType.embedding)) =
      some (FieldType.complex ComplexType.embedding) :=
  ⟨by decide,
   fieldtype_wire_round_trip.2 "Scalar" (Json.str "string")
     (FieldType.scalar ScalarType.string) (by decide),
   fieldtype_wire_round_trip.1 (FieldType.complex ComplexType.embedding)⟩

/-- Every `Alphanumeric` draw yields an alphanumeric character. -/
theorem alphaChar_isAlphanum : ∀ i : Fin 62, (alphaChar i).isAlphanum = true := by
  decide

/-- Distinct draws yield distinct characters. -/
theorem alphaChar_injective : ∀ a b : Fin 62, alphaChar a = alphaChar b → a = b := by
  decide

/-- The generated string has exactly the requested length. -/
theorem gen_random_string_length (len : Nat) (stream : Nat → Fin 62) :
    (gen_random_string len stream).length = len := by
  unfold gen_random_string
  rw [show (String.mk ((List.range len).map fun i => alphaChar (stream i))).length =
      ((List.range len).map fun i => alphaChar (stream i)).length from rfl,
    List.length_map, List.length_range]

/-- Every character of the generated string is alphanumeric. -/
theorem gen_random_string_alphanum (len : Nat) (stream : Nat → Fin 62) :
    ∀ ch ∈ (gen_random_string len stream).toList, ch.isAlphanum = true := by
  intro ch hch
  unfold gen_random_string at hch
  rw [show (String.mk ((List.range len).map fun i => alphaChar (stream i))).toList =
      ((List.range len).map fun i => alphaChar (stream i)) from rfl] at hch
  rcases List.mem_map.mp hch with ⟨i, _, rfl⟩
  exact alphaChar_isAlphanum (stream i)

/-- The generator is injective in the random draws: streams differing at a
consumed position yield different keys. -/
theorem gen_random_string_ne (f g : Nat → Fin 62) (i : Nat) (hi : i < 32)
    (hne : f i ≠ g i) : gen_random_string 32 f ≠ gen_random_string 32 g := by
  intro heq
  apply hne
  apply alphaChar_injective
  have hl : ((List.range 32).map fun j => alphaChar (f j)) =
      ((List.range 32).map fun j => alphaChar (g j)) := congrArg String.data heq
  have h2 : (((List.range 32).map fun j => alphaChar (f j)))[i]? =
      (((List.range 32).map fun j => alphaChar (g j)))[i]? := by rw [hl]
  simp only [List.getElem?_map, List.getElem?_range, hi, if_pos, Option.map_some'] at h2
  exact Option.some.inj h2

/-- Claim C7: the default-filled params carry a 32-character alphanumeric
write key and read key, drawn from disjoint segments of the random stream
(write first, positions 0..31; read next, positions 32..63) by a generator
injective in the draws — so independently drawn keys differ whenever any of
their draws differ — and the omitted language is filled with the default
language, English. -/
theorem default_params_key_generation
    (stream f g : Nat → Fin 62) (i : Nat) :
    (NewCollectionParams.default stream).write_api_key.length = 32 ∧
    (NewCollectionParams.default stream).read_api_key.length = 32 ∧
    (∀ ch ∈ (NewCollectionParams.default stream).write_api_key.toList,
      ch.isAlphanum = true) ∧
    (∀ ch ∈ (NewCollectionParams.default stream).read_api_key.toList,
      ch.isAlphanum = true) ∧
    (NewCollectionParams.default stream).language = some Language.english ∧
    (NewCollectionParams.default stream).write_api_key =
      gen_random_string 32 (fun j => stream j) ∧
    (NewCollectionParams.default stream).read_api_key =
      gen_random_string 32 (fun j => stream (32 + j)) ∧
    (i < 32 → f i ≠ g i →
      gen_random_string 32 f ≠ gen_random_string 32 g) :=
  ⟨gen_random_string_length 32 _, gen_random_string_length 32 _,
   gen_random_string_alphanum 32 _, gen_random_string_alphanum 32 _,
   rfl, rfl, rfl, fun hi hne => gen_random_string_ne f g i hi hne⟩

/-- Witness for claim C7 at concrete streams: constant streams differing at
position 0 yield different keys, and a sample character of a generated key
is alphanumeric. -/
theorem default_params_key_generation_witness :
    ((0 : Nat) < 32 ∧ (fun _ : Nat => (0 : Fin 62)) 0 ≠ (fun _ : Nat => (1 : Fin 62)) 0) ∧
    gen_random_string 32 (fun _ => (0 : Fin 62)) ≠ gen_random_string 32 (fun _ => (1 : Fin 62)) ∧
    ('A' ∈ (NewCollectionParams.default (fun _ => (0 : Fin 62))).write_api_key.toList ∧
      Char.isAlphanum 'A' = true) ∧
    (NewCollectionParams.default (fun _ => (0 : Fin 62))).write_api_key.length = 32 :=
  ⟨⟨by decide, by decide⟩,
   (default_params_key_generation (fun _ => 0) (fun _ => 0) (fun _ => 1) 0).2.2.2.2.2.2.2
     (by decide) (by decide),
   ⟨by decide,
    (default_params_key_generation (fun _ => 0) (fun _ => 0) (fun _ => 1) 0).2.2.1
      'A' (by decide)⟩,
   (default_params_key_generation (fun _ => 0) (fun _ => 0) (fun _ => 1) 0).1⟩

end Orama
